import Mathlib

/-!
# Data-center patch-cord calculator: a shallow embedding

This file embeds `cable_calculator.py` into Lean 4.  Lengths in meters are
represented by exact rationals (`ℚ`), rack and unit indices by integers (`ℤ`),
and the `ValueError` raised on an out-of-range unit by the `Except String`
monad.  Definitions mirror the Python source function by function; the
theorems at the end of the file settle the specification claims.
-/

/-- Available patch-cord lengths (m), ascending (`PATCH_CORD_OPTIONS_M`). -/
def PATCH_CORD_OPTIONS_M : List ℚ := [1, 1.5, 2, 3, 5, 7.5, 10, 15, 20]

/-- Last unit in a rack (`MAX_UNIT`). -/
def MAX_UNIT : ℤ := 50

/-- If the excess is ≥ 40 cm we try to shorten the recommendation. -/
def EXCESS_THRESHOLD_M : ℚ := 0.4

/-- The message of the `ValueError` raised on an out-of-range unit. -/
def unit_range_error : String := "Юнит должен быть в диапазоне 1..50"

/-- Position of a server in a rack: `rack` is the rack index (1, 2, 3, ...),
`unit` the unit number (1..50), 1 at the bottom. -/
structure ServerLocation where
  rack : ℤ
  unit : ℤ
deriving DecidableEq

/-- Configuration, kept only for API compatibility: the Python dataclass has
no fields, so this structure has none either. -/
structure DataCenterCableConfig

instance : DecidableEq DataCenterCableConfig := fun a b => by
  cases a; cases b; exact isTrue rfl

/-- `_same_rack_length_m`: cable length inside one rack, by table (m). -/
def same_rack_length_m (unit_a unit_b : ℤ) : Except String ℚ :=
  let delta := |unit_a - unit_b|
  if ¬ (1 ≤ unit_a ∧ unit_a ≤ MAX_UNIT ∧ 1 ≤ unit_b ∧ unit_b ≤ MAX_UNIT) then
    .error unit_range_error
  else if delta ≤ 2 then .ok 0.5
  else if delta ≤ 8 then .ok 1
  else if delta ≤ 15 then .ok 1.5
  else if delta ≤ 23 then .ok 2
  else if delta ≤ 37 then .ok 2.5
  else .ok 3

/-- `_round_up_to_patch_cord`: round a length up to the nearest available
patch cord; past the catalog, the last option is returned. -/
def round_up_to_patch_cord (length_m : ℚ) : ℚ :=
  match PATCH_CORD_OPTIONS_M.find? (fun opt => decide (length_m ≤ opt)) with
  | some opt => opt
  | none => PATCH_CORD_OPTIONS_M.getLast!

/-- `_round_to_nearest_patch_cord`: round a length to the nearest available
patch cord; on a tie, the larger one. -/
def round_to_nearest_patch_cord (length_m : ℚ) : ℚ :=
  let first := PATCH_CORD_OPTIONS_M.head!
  let step := fun (acc : ℚ × ℚ) (opt : ℚ) =>
    let d := |opt - length_m|
    if d < acc.2 ∨ (d = acc.2 ∧ acc.1 < opt) then (opt, d) else acc
  (PATCH_CORD_OPTIONS_M.foldl step (first, |first - length_m|)).1

/-- `_vertical_in_rack_a_m`: length in rack A, 4 cm per unit from the server
up to the top (50), in meters. -/
def vertical_in_rack_a_m (unit_a : ℤ) : Except String ℚ :=
  if ¬ (1 ≤ unit_a ∧ unit_a ≤ MAX_UNIT) then
    .error unit_range_error
  else
    .ok (0.04 * ((MAX_UNIT : ℚ) - (unit_a : ℚ)))

/-- `_cable_channel_m`: length in the cable channel,
(number of racks between A and B) * 50 cm + 100 cm, in meters. -/
def cable_channel_m (rack_a rack_b : ℤ) : ℚ :=
  let rack_delta := |rack_b - rack_a|
  if rack_delta = 0 then 0
  else ((rack_delta : ℚ) * 50 + 100) / 100

/-- `_vertical_in_rack_b_m`: length in the second rack (cable channel down to
the server): 0.5 m when 1–2 units from the top, otherwise
4·(50 − unit) + 70 + 30 cm, in meters. -/
def vertical_in_rack_b_m (unit_b : ℤ) : Except String ℚ :=
  if ¬ (1 ≤ unit_b ∧ unit_b ≤ MAX_UNIT) then
    .error unit_range_error
  else
    let units_from_top := MAX_UNIT - unit_b
    if units_from_top ≤ 2 then .ok 0.5
    else .ok (((4 * units_from_top + 70 + 30 : ℤ) : ℚ) / 100)

/-- `CableLengthBreakdown`: length components and the recommended cord. -/
structure CableLengthBreakdown where
  same_rack : Bool
  vertical_a_m : ℚ
  vertical_b_m : ℚ
  horizontal_m : ℚ
  raw_total_m : ℚ
  slack_added_m : ℚ
  rounded_total_m : ℚ
  recommended_patch_cord_m : ℚ
deriving DecidableEq

/-- `calculate_patch_cord_breakdown`: same rack → table by unit distance;
different racks → rack A + cable channel + rack B + 40 cm; round up to a
catalog cord; if the excess is ≥ 40 cm, try (recommended − 40 cm) rounded to
the nearest option, never going below the raw length. -/
def calculate_patch_cord_breakdown (server_a server_b : ServerLocation)
    (cfg : Option DataCenterCableConfig) : Except String CableLengthBreakdown := do
  let same_rack : Bool := server_a.rack = server_b.rack
  let (vertical_a, vertical_b, horizontal, raw_total, slack_added) ←
    if same_rack then do
      let raw_total ← same_rack_length_m server_a.unit server_b.unit
      pure (raw_total, (0 : ℚ), (0 : ℚ), raw_total, (0 : ℚ))
    else do
      let vertical_a ← vertical_in_rack_a_m server_a.unit
      let horizontal := cable_channel_m server_a.rack server_b.rack
      let vertical_b ← vertical_in_rack_b_m server_b.unit
      let raw_total := vertical_a + horizontal + vertical_b + 0.4
      pure (vertical_a, vertical_b, horizontal, raw_total, (0.4 : ℚ))
  let recommended := round_up_to_patch_cord raw_total
  let gap := recommended - raw_total
  let recommended :=
    if EXCESS_THRESHOLD_M ≤ gap then
      let candidate := recommended - EXCESS_THRESHOLD_M
      let shorter := round_to_nearest_patch_cord candidate
      if raw_total ≤ shorter then shorter else recommended
    else recommended
  pure {
    same_rack := same_rack
    vertical_a_m := vertical_a
    vertical_b_m := vertical_b
    horizontal_m := horizontal
    raw_total_m := raw_total
    slack_added_m := slack_added
    rounded_total_m := recommended
    recommended_patch_cord_m := recommended }

/-- `calculate_patch_cord_length_m`: the recommended patch-cord length (m). -/
def calculate_patch_cord_length_m (server_a server_b : ServerLocation)
    (cfg : Option DataCenterCableConfig) : Except String ℚ := do
  let breakdown ← calculate_patch_cord_breakdown server_a server_b cfg
  pure breakdown.recommended_patch_cord_m

/-!
## Proof infrastructure

Pure value-level companions of the fallible functions above, and lemmas
tying them together.  `same_rack_table`, `vertical_a_val`, `vertical_b_table`
and `recommend_of` compute the values the source functions return on valid
input.
-/

/-- A unit number is valid when it lies in 1..50. -/
def valid_unit (u : ℤ) : Prop := 1 ≤ u ∧ u ≤ MAX_UNIT

instance (u : ℤ) : Decidable (valid_unit u) := by
  unfold valid_unit; infer_instance

/-- The same-rack step table as a pure function of the unit distance. -/
def same_rack_table (d : ℤ) : ℚ :=
  if d ≤ 2 then 0.5
  else if d ≤ 8 then 1
  else if d ≤ 15 then 1.5
  else if d ≤ 23 then 2
  else if d ≤ 37 then 2.5
  else 3

/-- The rack-A vertical run as a pure function of the unit. -/
def vertical_a_val (u : ℤ) : ℚ := 0.04 * ((MAX_UNIT : ℚ) - (u : ℚ))

/-- The rack-B vertical run as a pure function of the unit. -/
def vertical_b_table (u : ℤ) : ℚ :=
  if MAX_UNIT - u ≤ 2 then 0.5
  else ((4 * (MAX_UNIT - u) + 70 + 30 : ℤ) : ℚ) / 100

/-- The recommendation step applied to a raw total: round up to the catalog,
then, when the excess reaches the threshold, try the 40 cm shorter candidate
rounded to the nearest option, keeping it only when it still covers the raw
total. -/
def recommend_of (raw : ℚ) : ℚ :=
  let recommended := round_up_to_patch_cord raw
  if EXCESS_THRESHOLD_M ≤ recommended - raw then
    let shorter := round_to_nearest_patch_cord (recommended - EXCESS_THRESHOLD_M)
    if raw ≤ shorter then shorter else recommended
  else recommended

/-!
## Specification-side formulations

`smallest_catalog_geq`, `nearest_catalog_spec`, `recommended_spec` and
`step_table_spec` restate the specification's own wording, to be compared
with the source functions: the smallest catalog value that covers the length
(clamped to the largest one); the catalog value nearest to the length with
ties broken toward the larger value (the fold from the right replaces the
running choice only when strictly closer, so among equally-distant values of
the ascending catalog the larger survives); the full recommendation
procedure; and the same-rack step table bucket by bucket. -/

/-- The smallest catalog value ≥ `x`; the largest catalog value if `x`
exceeds every option. -/
def smallest_catalog_geq (x : ℚ) : ℚ :=
  (PATCH_CORD_OPTIONS_M.filter (fun c => decide (x ≤ c))).headD
    PATCH_CORD_OPTIONS_M.getLast!

/-- The catalog value nearest to `x`, ties broken toward the larger value. -/
def nearest_catalog_spec (x : ℚ) : ℚ :=
  PATCH_CORD_OPTIONS_M.foldr (fun c best => if |c - x| < |best - x| then c else best)
    PATCH_CORD_OPTIONS_M.getLast!

/-- The recommendation procedure as the specification words it: `recommended`
is the smallest catalog value ≥ `rawTotal` (clamped to the largest); when the
gap reaches 0.40 m, the candidate `recommended − 0.40` is rounded to the
nearest catalog value (ties toward the larger) and adopted exactly when it
still covers `rawTotal`. -/
def recommended_spec (raw : ℚ) : ℚ :=
  let recommended := smallest_catalog_geq raw
  let gap := recommended - raw
  if 0.4 ≤ gap then
    let nearest := nearest_catalog_spec (recommended - 0.4)
    if raw ≤ nearest then nearest else recommended
  else recommended

/-- The same-rack step table exactly as the claim words it, bucket by
bucket. -/
def step_table_spec (d : ℤ) : ℚ :=
  if 0 ≤ d ∧ d ≤ 2 then 0.5
  else if 3 ≤ d ∧ d ≤ 8 then 1
  else if 9 ≤ d ∧ d ≤ 15 then 1.5
  else if 16 ≤ d ∧ d ≤ 23 then 2
  else if 24 ≤ d ∧ d ≤ 37 then 2.5
  else if 38 ≤ d ∧ d ≤ 50 then 3
  else 0

lemma same_rack_length_m_ok (ua ub : ℤ) (ha : valid_unit ua) (hb : valid_unit ub) :
    same_rack_length_m ua ub = .ok (same_rack_table |ua - ub|) := by
  obtain ⟨ha1, ha2⟩ := ha
  obtain ⟨hb1, hb2⟩ := hb
  show (if ¬ (1 ≤ ua ∧ ua ≤ MAX_UNIT ∧ 1 ≤ ub ∧ ub ≤ MAX_UNIT) then
      (Except.error unit_range_error : Except String ℚ)
    else if |ua - ub| ≤ 2 then .ok 0.5
    else if |ua - ub| ≤ 8 then .ok 1
    else if |ua - ub| ≤ 15 then .ok 1.5
    else if |ua - ub| ≤ 23 then .ok 2
    else if |ua - ub| ≤ 37 then .ok 2.5
    else .ok 3) = _
  rw [if_neg (not_not_intro ⟨ha1, ha2, hb1, hb2⟩)]
  unfold same_rack_table
  split_ifs <;> rfl

lemma same_rack_length_m_err (ua ub : ℤ) (h : ¬ (valid_unit ua ∧ valid_unit ub)) :
    same_rack_length_m ua ub = .error unit_range_error := by
  show (if ¬ (1 ≤ ua ∧ ua ≤ MAX_UNIT ∧ 1 ≤ ub ∧ ub ≤ MAX_UNIT) then
      (Except.error unit_range_error : Except String ℚ)
    else if |ua - ub| ≤ 2 then .ok 0.5
    else if |ua - ub| ≤ 8 then .ok 1
    else if |ua - ub| ≤ 15 then .ok 1.5
    else if |ua - ub| ≤ 23 then .ok 2
    else if |ua - ub| ≤ 37 then .ok 2.5
    else .ok 3) = _
  rw [if_pos]
  intro ⟨h1, h2, h3, h4⟩
  exact h ⟨⟨h1, h2⟩, ⟨h3, h4⟩⟩

lemma vertical_in_rack_a_m_ok (ua : ℤ) (ha : valid_unit ua) :
    vertical_in_rack_a_m ua = .ok (vertical_a_val ua) := by
  obtain ⟨ha1, ha2⟩ := ha
  unfold vertical_in_rack_a_m vertical_a_val
  rw [if_neg (not_not_intro ⟨ha1, ha2⟩)]

lemma vertical_in_rack_a_m_err (ua : ℤ) (h : ¬ valid_unit ua) :
    vertical_in_rack_a_m ua = .error unit_range_error := by
  unfold vertical_in_rack_a_m
  rw [if_pos]
  intro ⟨h1, h2⟩
  exact h ⟨h1, h2⟩

lemma vertical_in_rack_b_m_ok (ub : ℤ) (hb : valid_unit ub) :
    vertical_in_rack_b_m ub = .ok (vertical_b_table ub) := by
  obtain ⟨hb1, hb2⟩ := hb
  show (if ¬ (1 ≤ ub ∧ ub ≤ MAX_UNIT) then
      (Except.error unit_range_error : Except String ℚ)
    else if MAX_UNIT - ub ≤ 2 then .ok 0.5
    else .ok (((4 * (MAX_UNIT - ub) + 70 + 30 : ℤ) : ℚ) / 100)) = _
  rw [if_neg (not_not_intro ⟨hb1, hb2⟩)]
  unfold vertical_b_table
  split_ifs <;> rfl

lemma vertical_in_rack_b_m_err (ub : ℤ) (h : ¬ valid_unit ub) :
    vertical_in_rack_b_m ub = .error unit_range_error := by
  show (if ¬ (1 ≤ ub ∧ ub ≤ MAX_UNIT) then
      (Except.error unit_range_error : Except String ℚ)
    else if MAX_UNIT - ub ≤ 2 then .ok 0.5
    else .ok (((4 * (MAX_UNIT - ub) + 70 + 30 : ℤ) : ℚ) / 100)) = _
  rw [if_pos]
  intro ⟨h1, h2⟩
  exact h ⟨h1, h2⟩

/-- The breakdown produced on the same-rack path, on valid units. -/
lemma calculate_same (a b : ServerLocation) (cfg : Option DataCenterCableConfig)
    (hr : a.rack = b.rack) (ha : valid_unit a.unit) (hb : valid_unit b.unit) :
    calculate_patch_cord_breakdown a b cfg =
      .ok { same_rack := true
            vertical_a_m := same_rack_table |a.unit - b.unit|
            vertical_b_m := 0
            horizontal_m := 0
            raw_total_m := same_rack_table |a.unit - b.unit|
            slack_added_m := 0
            rounded_total_m := recommend_of (same_rack_table |a.unit - b.unit|)
            recommended_patch_cord_m := recommend_of (same_rack_table |a.unit - b.unit|) } := by
  unfold calculate_patch_cord_breakdown
  rw [same_rack_length_m_ok a.unit b.unit ha hb]
  simp [hr, Bind.bind, Except.bind, Pure.pure, Except.pure, recommend_of]

/-- The breakdown produced on the cross-rack path, on valid units. -/
lemma calculate_cross (a b : ServerLocation) (cfg : Option DataCenterCableConfig)
    (hr : a.rack ≠ b.rack) (ha : valid_unit a.unit) (hb : valid_unit b.unit) :
    calculate_patch_cord_breakdown a b cfg =
      .ok { same_rack := false
            vertical_a_m := vertical_a_val a.unit
            vertical_b_m := vertical_b_table b.unit
            horizontal_m := cable_channel_m a.rack b.rack
            raw_total_m := vertical_a_val a.unit + cable_channel_m a.rack b.rack +
              vertical_b_table b.unit + 0.4
            slack_added_m := 0.4
            rounded_total_m := recommend_of (vertical_a_val a.unit +
              cable_channel_m a.rack b.rack + vertical_b_table b.unit + 0.4)
            recommended_patch_cord_m := recommend_of (vertical_a_val a.unit +
              cable_channel_m a.rack b.rack + vertical_b_table b.unit + 0.4) } := by
  unfold calculate_patch_cord_breakdown
  rw [vertical_in_rack_a_m_ok a.unit ha, vertical_in_rack_b_m_ok b.unit hb]
  simp [hr, Bind.bind, Except.bind, Pure.pure, Except.pure, recommend_of]

/-- The error produced when some unit is out of range. -/
lemma calculate_err (a b : ServerLocation) (cfg : Option DataCenterCableConfig)
    (h : ¬ (valid_unit a.unit ∧ valid_unit b.unit)) :
    calculate_patch_cord_breakdown a b cfg = .error unit_range_error := by
  unfold calculate_patch_cord_breakdown
  by_cases hr : a.rack = b.rack
  · rw [same_rack_length_m_err a.unit b.unit h]
    simp [hr, Bind.bind, Except.bind]
  · by_cases ha : valid_unit a.unit
    · have hb : ¬ valid_unit b.unit := fun hb => h ⟨ha, hb⟩
      rw [vertical_in_rack_a_m_ok a.unit ha, vertical_in_rack_b_m_err b.unit hb]
      simp [hr, Bind.bind, Except.bind]
    · rw [vertical_in_rack_a_m_err a.unit ha]
      simp [hr, Bind.bind, Except.bind]

/-- A breakdown is produced exactly on valid units. -/
lemma calculate_ok_iff (a b : ServerLocation) (cfg : Option DataCenterCableConfig) :
    (∃ bd, calculate_patch_cord_breakdown a b cfg = .ok bd) ↔
      (valid_unit a.unit ∧ valid_unit b.unit) := by
  constructor
  · rintro ⟨bd, hbd⟩
    by_contra h
    rw [calculate_err a b cfg h] at hbd
    exact Except.noConfusion hbd
  · rintro ⟨ha, hb⟩
    by_cases hr : a.rack = b.rack
    · exact ⟨_, calculate_same a b cfg hr ha hb⟩
    · exact ⟨_, calculate_cross a b cfg hr ha hb⟩

/-- A produced breakdown forces valid units. -/
lemma calculate_ok_valid (a b : ServerLocation) (cfg : Option DataCenterCableConfig)
    (bd : CableLengthBreakdown) (hbd : calculate_patch_cord_breakdown a b cfg = .ok bd) :
    valid_unit a.unit ∧ valid_unit b.unit :=
  (calculate_ok_iff a b cfg).1 ⟨bd, hbd⟩

lemma round_up_eq_chain (x : ℚ) :
    round_up_to_patch_cord x =
      if x ≤ 1 then 1 else if x ≤ 1.5 then 1.5 else if x ≤ 2 then 2
      else if x ≤ 3 then 3 else if x ≤ 5 then 5 else if x ≤ 7.5 then 7.5
      else if x ≤ 10 then 10 else if x ≤ 15 then 15 else 20 := by
  unfold round_up_to_patch_cord PATCH_CORD_OPTIONS_M
  by_cases h1 : x ≤ 1
  · simp [List.find?, h1]
  by_cases h2 : x ≤ 1.5
  · simp [List.find?, h1, h2]
  by_cases h3 : x ≤ 2
  · simp [List.find?, h1, h2, h3]
  by_cases h4 : x ≤ 3
  · simp [List.find?, h1, h2, h3, h4]
  by_cases h5 : x ≤ 5
  · simp [List.find?, h1, h2, h3, h4, h5]
  by_cases h6 : x ≤ 7.5
  · simp [List.find?, h1, h2, h3, h4, h5, h6]
  by_cases h7 : x ≤ 10
  · simp [List.find?, h1, h2, h3, h4, h5, h6, h7]
  by_cases h8 : x ≤ 15
  · simp [List.find?, h1, h2, h3, h4, h5, h6, h7, h8]
  by_cases h9 : x ≤ 20 <;>
    simp [List.find?, List.getLast!, h1, h2, h3, h4, h5, h6, h7, h8, h9]

lemma round_up_eq_smallest (x : ℚ) :
    round_up_to_patch_cord x = smallest_catalog_geq x := by
  rw [round_up_eq_chain]
  unfold smallest_catalog_geq PATCH_CORD_OPTIONS_M
  by_cases h1 : x ≤ 1
  · simp [List.filter, h1]
  by_cases h2 : x ≤ 1.5
  · simp [List.filter, h1, h2]
  by_cases h3 : x ≤ 2
  · simp [List.filter, h1, h2, h3]
  by_cases h4 : x ≤ 3
  · simp [List.filter, h1, h2, h3, h4]
  by_cases h5 : x ≤ 5
  · simp [List.filter, h1, h2, h3, h4, h5]
  by_cases h6 : x ≤ 7.5
  · simp [List.filter, h1, h2, h3, h4, h5, h6]
  by_cases h7 : x ≤ 10
  · simp [List.filter, h1, h2, h3, h4, h5, h6, h7]
  by_cases h8 : x ≤ 15
  · simp [List.filter, h1, h2, h3, h4, h5, h6, h7, h8]
  by_cases h9 : x ≤ 20 <;>
    simp [List.filter, List.getLast!, h1, h2, h3, h4, h5, h6, h7, h8, h9]

lemma round_up_mem (x : ℚ) : round_up_to_patch_cord x ∈ PATCH_CORD_OPTIONS_M := by
  rw [round_up_eq_chain]
  unfold PATCH_CORD_OPTIONS_M
  split_ifs <;> simp

lemma round_up_ge (x : ℚ) (h : x ≤ 20) : x ≤ round_up_to_patch_cord x := by
  rw [round_up_eq_chain]
  split_ifs <;> first | assumption | linarith

/-- On the nine candidate lengths the shortening step can produce, the
source's nearest-rounding agrees with the specification's formulation, and
the result is a catalog value. -/
lemma nearest_shift_vals :
    ∀ c ∈ PATCH_CORD_OPTIONS_M,
      round_to_nearest_patch_cord (c - EXCESS_THRESHOLD_M) ∈ PATCH_CORD_OPTIONS_M ∧
      round_to_nearest_patch_cord (c - EXCESS_THRESHOLD_M) =
        nearest_catalog_spec (c - EXCESS_THRESHOLD_M) := by
  intro c hc
  fin_cases hc <;>
    constructor <;>
    norm_num [round_to_nearest_patch_cord, nearest_catalog_spec, EXCESS_THRESHOLD_M,
      PATCH_CORD_OPTIONS_M, List.foldl, List.foldr, List.head!, List.getLast!,
      abs_of_nonneg]

lemma recommend_of_mem (raw : ℚ) : recommend_of raw ∈ PATCH_CORD_OPTIONS_M := by
  simp only [recommend_of]
  split_ifs with h1 h2
  · exact (nearest_shift_vals _ (round_up_mem raw)).1
  · exact round_up_mem raw
  · exact round_up_mem raw

lemma recommend_of_ge (raw : ℚ) (h : raw ≤ 20) : raw ≤ recommend_of raw := by
  simp only [recommend_of]
  split_ifs with h1 h2
  · exact h2
  · exact round_up_ge raw h
  · exact round_up_ge raw h

lemma recommend_of_eq_spec (raw : ℚ) : recommend_of raw = recommended_spec raw := by
  simp only [recommend_of, recommended_spec]
  rw [← round_up_eq_smallest]
  have e : (0.4 : ℚ) = EXCESS_THRESHOLD_M := rfl
  rw [e, (nearest_shift_vals _ (round_up_mem raw)).2]

lemma same_rack_table_eq_spec (d : ℤ) (h0 : 0 ≤ d) (h50 : d ≤ 50) :
    same_rack_table d = step_table_spec d := by
  unfold same_rack_table step_table_spec
  split_ifs <;> first | rfl | omega

/-!
## Bounds used for the monotonicity claim
-/

lemma same_rack_table_le_three (d : ℤ) : same_rack_table d ≤ 3 := by
  unfold same_rack_table
  split_ifs <;> norm_num

lemma same_rack_table_le_two (d : ℤ) (h : d ≤ 23) : same_rack_table d ≤ 2 := by
  unfold same_rack_table
  split_ifs <;> first | norm_num | omega

lemma vertical_a_val_nonneg (ua : ℤ) (ha : valid_unit ua) : 0 ≤ vertical_a_val ua := by
  obtain ⟨_, ha2⟩ := ha
  unfold vertical_a_val MAX_UNIT
  have : (ua : ℚ) ≤ 50 := by exact_mod_cast (by exact_mod_cast ha2 : ua ≤ (50 : ℤ))
  nlinarith

lemma vertical_b_table_ge_half (ub : ℤ) (hb : valid_unit ub) :
    0.5 ≤ vertical_b_table ub := by
  unfold vertical_b_table
  split_ifs with h
  · norm_num
  · have h3 : (112 : ℤ) ≤ 4 * (MAX_UNIT - ub) + 70 + 30 := by unfold MAX_UNIT at *; omega
    have h3q : (112 : ℚ) ≤ ((4 * (MAX_UNIT - ub) + 70 + 30 : ℤ) : ℚ) := by exact_mod_cast h3
    linarith

lemma cable_channel_m_eq (ra rb : ℤ) (h : ra ≠ rb) :
    cable_channel_m ra rb = ((|rb - ra| : ℤ) : ℚ) * 50 / 100 + 1 := by
  show (if |rb - ra| = 0 then (0 : ℚ)
    else (((|rb - ra| : ℤ) : ℚ) * 50 + 100) / 100) = _
  rw [if_neg (by rw [abs_eq_zero, sub_eq_zero]; exact fun hh => h hh.symm)]
  ring

lemma cable_channel_m_ge (ra rb : ℤ) (h : ra ≠ rb) : 1.5 ≤ cable_channel_m ra rb := by
  rw [cable_channel_m_eq ra rb h]
  have h1 : (1 : ℤ) ≤ |rb - ra| := by
    rcases abs_pos.mpr (sub_ne_zero.mpr (fun hh => h hh.symm)) with hh
    omega
  have h1q : (1 : ℚ) ≤ ((|rb - ra| : ℤ) : ℚ) := by exact_mod_cast h1
  nlinarith

/-- Cross-rack raw length dominates the same-rack table on the same pair of
units: the heart of the monotonicity claim at rack gap 0. -/
lemma cross_ge_same (ua ub : ℤ) (ha : valid_unit ua) (hb : valid_unit ub)
    (c : ℚ) (hc : 1.5 ≤ c) :
    same_rack_table |ua - ub| ≤ vertical_a_val ua + c + vertical_b_table ub + 0.4 := by
  obtain ⟨ha1, ha2⟩ := ha
  obtain ⟨hb1, hb2⟩ := hb
  have hva := vertical_a_val_nonneg ua ⟨ha1, ha2⟩
  have hvb := vertical_b_table_ge_half ub ⟨hb1, hb2⟩
  by_cases hd : |ua - ub| ≤ 23
  · have ht := same_rack_table_le_two _ hd
    linarith
  · have ht := same_rack_table_le_three |ua - ub|
    have hd24 : 24 ≤ |ua - ub| := by omega
    rcases abs_cases (ua - ub) with ⟨heq, _⟩ | ⟨heq, _⟩
    · -- ua − ub ≥ 24, so unit B sits ≥ 24 units from the top of rack B
      have hub : MAX_UNIT - ub ≥ 24 := by unfold MAX_UNIT at *; omega
      have hvb2 : (1.96 : ℚ) ≤ vertical_b_table ub := by
        unfold vertical_b_table
        rw [if_neg (by omega)]
        have h3 : (196 : ℤ) ≤ 4 * (MAX_UNIT - ub) + 70 + 30 := by omega
        have h3q : (196 : ℚ) ≤ ((4 * (MAX_UNIT - ub) + 70 + 30 : ℤ) : ℚ) := by
          exact_mod_cast h3
        linarith
      linarith
    · -- ub − ua ≥ 24, so unit A sits ≥ 24 units below the top of rack A
      have hua : 24 ≤ MAX_UNIT - ua := by unfold MAX_UNIT at *; omega
      have hva2 : (0.96 : ℚ) ≤ vertical_a_val ua := by
        unfold vertical_a_val
        have h3 : (24 : ℤ) ≤ MAX_UNIT - ua := hua
        have h3q : (24 : ℚ) ≤ ((MAX_UNIT : ℤ) : ℚ) - (ua : ℚ) := by
          push_cast at h3 ⊢
          exact_mod_cast h3
        unfold MAX_UNIT at h3q ⊢
        push_cast at h3q ⊢
        nlinarith
      linarith

/-- The length function is the breakdown's recommended field, mapped. -/
lemma length_eq_map (a b : ServerLocation) (cfg : Option DataCenterCableConfig) :
    calculate_patch_cord_length_m a b cfg =
      (calculate_patch_cord_breakdown a b cfg).map
        (fun bd => bd.recommended_patch_cord_m) := by
  unfold calculate_patch_cord_length_m
  cases calculate_patch_cord_breakdown a b cfg <;> rfl

/-- Every produced breakdown carries `recommend_of` of its own raw total in
both rounding fields. -/
lemma calculate_recommended_eq (a b : ServerLocation)
    (cfg : Option DataCenterCableConfig) (bd : CableLengthBreakdown)
    (hbd : calculate_patch_cord_breakdown a b cfg = .ok bd) :
    bd.recommended_patch_cord_m = recommend_of bd.raw_total_m ∧
    bd.rounded_total_m = recommend_of bd.raw_total_m := by
  obtain ⟨ha, hb⟩ := calculate_ok_valid a b cfg bd hbd
  by_cases hr : a.rack = b.rack
  · rw [calculate_same a b cfg hr ha hb] at hbd
    injection hbd with h
    subst h
    exact ⟨rfl, rfl⟩
  · rw [calculate_cross a b cfg hr ha hb] at hbd
    injection hbd with h
    subst h
    exact ⟨rfl, rfl⟩

/-!
## The claims
-/

/-- C9: the result of `calculate_patch_cord_breakdown` does not depend on the
configuration argument — passing any constructed `DataCenterCableConfig`
yields the same breakdown as passing none, on every pair of locations. -/
theorem C9_config_independent (a b : ServerLocation) (cfg : DataCenterCableConfig) :
    calculate_patch_cord_breakdown a b (some cfg) =
      calculate_patch_cord_breakdown a b none := rfl

/-- C1 (amended): whenever a breakdown is produced and its raw total does not
exceed the largest catalog value 20.0, the recommended patch cord covers the
raw total. -/
theorem C1_recommended_covers_raw (a b : ServerLocation)
    (cfg : Option DataCenterCableConfig) (bd : CableLengthBreakdown)
    (hbd : calculate_patch_cord_breakdown a b cfg = .ok bd)
    (h20 : bd.raw_total_m ≤ 20) :
    bd.raw_total_m ≤ bd.recommended_patch_cord_m := by
  rw [(calculate_recommended_eq a b cfg bd hbd).1]
  exact recommend_of_ge _ h20

/-- C1 witness: a valid same-rack pair two units apart, raw total 0.5 m,
recommended cord 1.0 m. -/
theorem C1_witness :
    calculate_patch_cord_breakdown ⟨1, 10⟩ ⟨1, 12⟩ none =
      .ok { same_rack := true, vertical_a_m := 0.5, vertical_b_m := 0,
            horizontal_m := 0, raw_total_m := 0.5, slack_added_m := 0,
            rounded_total_m := 1, recommended_patch_cord_m := 1 } ∧
    (0.5 : ℚ) ≤ 20 ∧ (0.5 : ℚ) ≤ 1 := by
  have h : calculate_patch_cord_breakdown ⟨1, 10⟩ ⟨1, 12⟩ none =
      .ok { same_rack := true, vertical_a_m := 0.5, vertical_b_m := 0,
            horizontal_m := 0, raw_total_m := 0.5, slack_added_m := 0,
            rounded_total_m := 1, recommended_patch_cord_m := 1 } := by
    rw [calculate_same ⟨1, 10⟩ ⟨1, 12⟩ none rfl (by decide) (by decide)]
    simp only [Except.ok.injEq, CableLengthBreakdown.mk.injEq]
    norm_num [same_rack_table, recommend_of, EXCESS_THRESHOLD_M, round_up_eq_chain,
      round_to_nearest_patch_cord, PATCH_CORD_OPTIONS_M, List.foldl, List.head!,
      abs_of_nonneg]
  exact ⟨h, by norm_num, C1_recommended_covers_raw ⟨1, 10⟩ ⟨1, 12⟩ none _ h (by norm_num)⟩

/-- C1 counterexample: with racks 1 and 41 and both units at the top, the raw
total is 21.9 m, past the catalog; the recommendation clamps to 20 m, which
is below the raw total, so `recommended ≥ rawTotal` fails as stated. -/
theorem C1_clamp_counterexample :
    calculate_patch_cord_breakdown ⟨1, 50⟩ ⟨41, 50⟩ none =
      .ok { same_rack := false, vertical_a_m := 0, vertical_b_m := 0.5,
            horizontal_m := 21, raw_total_m := 21.9, slack_added_m := 0.4,
            rounded_total_m := 20, recommended_patch_cord_m := 20 } ∧
    ¬ ((21.9 : ℚ) ≤ 20) := by
  constructor
  · rw [calculate_cross ⟨1, 50⟩ ⟨41, 50⟩ none (by decide) (by decide) (by decide)]
    simp only [Except.ok.injEq, CableLengthBreakdown.mk.injEq]
    norm_num [vertical_a_val, vertical_b_table, cable_channel_m, MAX_UNIT,
      recommend_of, EXCESS_THRESHOLD_M, round_up_eq_chain,
      round_to_nearest_patch_cord, PATCH_CORD_OPTIONS_M, List.foldl, List.head!,
      abs_of_nonneg]
  · norm_num

/-- C2 (amended): the calculation fails — with the unit-range `ValueError`
message — exactly when one of the unit numbers lies outside 1..50, and
produces a breakdown exactly when both units are in range; rack values are
not validated, and the error does not identify which location offended. -/
theorem C2_error_iff_invalid_unit (a b : ServerLocation)
    (cfg : Option DataCenterCableConfig) :
    (calculate_patch_cord_breakdown a b cfg = .error unit_range_error ↔
      ¬ (valid_unit a.unit ∧ valid_unit b.unit)) ∧
    ((∃ bd, calculate_patch_cord_breakdown a b cfg = .ok bd) ↔
      (valid_unit a.unit ∧ valid_unit b.unit)) := by
  refine ⟨⟨?_, calculate_err a b cfg⟩, calculate_ok_iff a b cfg⟩
  intro herr
  intro hval
  obtain ⟨bd, hbd⟩ := (calculate_ok_iff a b cfg).2 hval
  rw [hbd] at herr
  exact Except.noConfusion herr

/-- C2 witness: unit 0 is rejected with the unit-range error. -/
theorem C2_witness :
    ¬ (valid_unit (0 : ℤ) ∧ valid_unit 5) ∧
    calculate_patch_cord_breakdown ⟨1, 0⟩ ⟨1, 5⟩ none = .error unit_range_error := by
  have h : ¬ (valid_unit (0 : ℤ) ∧ valid_unit 5) := by decide
  exact ⟨h, (C2_error_iff_invalid_unit ⟨1, 0⟩ ⟨1, 5⟩ none).1.mpr h⟩

/-- C2 counterexample: racks 0 and −3 are non-positive, yet the calculation
does not fail — it returns a full breakdown — so the claim that a
non-positive rack always raises the validation error is false. -/
theorem C2_nonpositive_rack_counterexample :
    (¬ 0 < (0 : ℤ)) ∧ (¬ 0 < (-3 : ℤ)) ∧
    calculate_patch_cord_breakdown ⟨0, 10⟩ ⟨-3, 10⟩ none =
      .ok { same_rack := false, vertical_a_m := 1.6, vertical_b_m := 2.6,
            horizontal_m := 2.5, raw_total_m := 7.1, slack_added_m := 0.4,
            rounded_total_m := 7.5, recommended_patch_cord_m := 7.5 } := by
  refine ⟨by norm_num, by norm_num, ?_⟩
  rw [calculate_cross ⟨0, 10⟩ ⟨-3, 10⟩ none (by decide) (by decide) (by decide)]
  simp only [Except.ok.injEq, CableLengthBreakdown.mk.injEq]
  norm_num [vertical_a_val, vertical_b_table, cable_channel_m, MAX_UNIT,
    recommend_of, EXCESS_THRESHOLD_M, round_up_eq_chain,
    round_to_nearest_patch_cord, PATCH_CORD_OPTIONS_M, List.foldl, List.head!,
    abs_of_nonneg]

/-- C7: every recommended patch cord — in the breakdown and as returned by
`calculate_patch_cord_length_m` — is a member of the fixed catalog. -/
theorem C7_catalog_membership (a b : ServerLocation)
    (cfg : Option DataCenterCableConfig) :
    (∀ bd, calculate_patch_cord_breakdown a b cfg = .ok bd →
      bd.recommended_patch_cord_m ∈ PATCH_CORD_OPTIONS_M) ∧
    (∀ l, calculate_patch_cord_length_m a b cfg = .ok l →
      l ∈ PATCH_CORD_OPTIONS_M) := by
  constructor
  · intro bd hbd
    rw [(calculate_recommended_eq a b cfg bd hbd).1]
    exact recommend_of_mem _
  · intro l hl
    rw [length_eq_map] at hl
    cases h : calculate_patch_cord_breakdown a b cfg with
    | error e => rw [h] at hl; exact Except.noConfusion hl
    | ok bd =>
      rw [h] at hl
      simp only [Except.map] at hl
      injection hl with hl
      rw [← hl, (calculate_recommended_eq a b cfg bd h).1]
      exact recommend_of_mem _

/-- C7 witness: a cross-rack pair whose recommended cord is 7.5 m, a catalog
value. -/
theorem C7_witness :
    calculate_patch_cord_breakdown ⟨1, 25⟩ ⟨4, 8⟩ none =
      .ok { same_rack := false, vertical_a_m := 1, vertical_b_m := 2.68,
            horizontal_m := 2.5, raw_total_m := 6.58, slack_added_m := 0.4,
            rounded_total_m := 7.5, recommended_patch_cord_m := 7.5 } ∧
    (7.5 : ℚ) ∈ PATCH_CORD_OPTIONS_M := by
  have h : calculate_patch_cord_breakdown ⟨1, 25⟩ ⟨4, 8⟩ none =
      .ok { same_rack := false, vertical_a_m := 1, vertical_b_m := 2.68,
            horizontal_m := 2.5, raw_total_m := 6.58, slack_added_m := 0.4,
            rounded_total_m := 7.5, recommended_patch_cord_m := 7.5 } := by
    rw [calculate_cross ⟨1, 25⟩ ⟨4, 8⟩ none (by decide) (by decide) (by decide)]
    simp only [Except.ok.injEq, CableLengthBreakdown.mk.injEq]
    norm_num [vertical_a_val, vertical_b_table, cable_channel_m, MAX_UNIT,
      recommend_of, EXCESS_THRESHOLD_M, round_up_eq_chain,
      round_to_nearest_patch_cord, PATCH_CORD_OPTIONS_M, List.foldl, List.head!,
      abs_of_nonneg]
  exact ⟨h, (C7_catalog_membership ⟨1, 25⟩ ⟨4, 8⟩ none).1 _ h⟩

/-- C3: the recommended patch cord of every produced breakdown equals the
specification's procedure applied to the raw total: smallest catalog value
covering it (clamped to the largest), then the 0.40 m shorter candidate
rounded to the nearest catalog value and adopted exactly when it still
covers the raw total. -/
theorem C3_recommended_refines_spec (a b : ServerLocation)
    (cfg : Option DataCenterCableConfig) (bd : CableLengthBreakdown)
    (hbd : calculate_patch_cord_breakdown a b cfg = .ok bd) :
    bd.recommended_patch_cord_m = recommended_spec bd.raw_total_m := by
  rw [(calculate_recommended_eq a b cfg bd hbd).1, recommend_of_eq_spec]

/-- C3 witness: a cross-rack pair with raw total 5.7 m; the round-up value
7.5 m leaves a 1.8 m gap, the 7.1 m candidate rounds back to 7.5 m, and both
the source and the specification procedure settle on 7.5 m. -/
theorem C3_witness :
    calculate_patch_cord_breakdown ⟨1, 10⟩ ⟨2, 20⟩ none =
      .ok { same_rack := false, vertical_a_m := 1.6, vertical_b_m := 2.2,
            horizontal_m := 1.5, raw_total_m := 5.7, slack_added_m := 0.4,
            rounded_total_m := 7.5, recommended_patch_cord_m := 7.5 } ∧
    recommended_spec 5.7 = 7.5 ∧
    (7.5 : ℚ) = recommended_spec 5.7 := by
  have h : calculate_patch_cord_breakdown ⟨1, 10⟩ ⟨2, 20⟩ none =
      .ok { same_rack := false, vertical_a_m := 1.6, vertical_b_m := 2.2,
            horizontal_m := 1.5, raw_total_m := 5.7, slack_added_m := 0.4,
            rounded_total_m := 7.5, recommended_patch_cord_m := 7.5 } := by
    rw [calculate_cross ⟨1, 10⟩ ⟨2, 20⟩ none (by decide) (by decide) (by decide)]
    simp only [Except.ok.injEq, CableLengthBreakdown.mk.injEq]
    norm_num [vertical_a_val, vertical_b_table, cable_channel_m, MAX_UNIT,
      recommend_of, EXCESS_THRESHOLD_M, round_up_eq_chain,
      round_to_nearest_patch_cord, PATCH_CORD_OPTIONS_M, List.foldl, List.head!,
      abs_of_nonneg]
  have hspec : recommended_spec 5.7 = 7.5 := by
    norm_num [recommended_spec, smallest_catalog_geq, nearest_catalog_spec,
      PATCH_CORD_OPTIONS_M, List.filter, List.headD, List.getLast!, List.foldr,
      abs_of_nonneg]
  exact ⟨h, hspec, C3_recommended_refines_spec ⟨1, 10⟩ ⟨2, 20⟩ none _ h⟩

/-- C4: on the cross-rack path the raw total is the sum of the rack-A
vertical run, the cable-channel run, the rack-B vertical run and the fixed
0.40 m margin, with each segment given by the claimed formula. -/
theorem C4_cross_rack_raw_total (a b : ServerLocation)
    (cfg : Option DataCenterCableConfig) (bd : CableLengthBreakdown)
    (hr : a.rack ≠ b.rack)
    (hbd : calculate_patch_cord_breakdown a b cfg = .ok bd) :
    bd.raw_total_m =
      0.04 * ((50 : ℚ) - (a.unit : ℚ)) +
      (((|b.rack - a.rack| : ℤ) : ℚ) * 50 + 100) / 100 +
      (if (50 : ℤ) - b.unit ≤ 2 then (0.5 : ℚ)
        else ((4 * ((50 : ℤ) - b.unit) + 100 : ℤ) : ℚ) / 100) +
      0.4 := by
  obtain ⟨ha, hb⟩ := calculate_ok_valid a b cfg bd hbd
  rw [calculate_cross a b cfg hr ha hb] at hbd
  injection hbd with h
  subst h
  show vertical_a_val a.unit + cable_channel_m a.rack b.rack +
    vertical_b_table b.unit + 0.4 = _
  rw [cable_channel_m_eq a.rack b.rack hr]
  unfold vertical_a_val vertical_b_table MAX_UNIT
  split_ifs
  · push_cast
    ring
  · push_cast
    ring

/-- C4 witness: racks 1 and 3, units 10 and 20 — each segment evaluates to
the claimed formula and the raw total is 6.2 m. -/
theorem C4_witness :
    calculate_patch_cord_breakdown ⟨1, 10⟩ ⟨3, 20⟩ none =
      .ok { same_rack := false, vertical_a_m := 1.6, vertical_b_m := 2.2,
            horizontal_m := 2, raw_total_m := 6.2, slack_added_m := 0.4,
            rounded_total_m := 7.5, recommended_patch_cord_m := 7.5 } ∧
    (6.2 : ℚ) =
      0.04 * ((50 : ℚ) - ((10 : ℤ) : ℚ)) +
      (((|(3 : ℤ) - 1| : ℤ) : ℚ) * 50 + 100) / 100 +
      (if (50 : ℤ) - 20 ≤ 2 then (0.5 : ℚ)
        else ((4 * ((50 : ℤ) - 20) + 100 : ℤ) : ℚ) / 100) +
      0.4 := by
  have h : calculate_patch_cord_breakdown ⟨1, 10⟩ ⟨3, 20⟩ none =
      .ok { same_rack := false, vertical_a_m := 1.6, vertical_b_m := 2.2,
            horizontal_m := 2, raw_total_m := 6.2, slack_added_m := 0.4,
            rounded_total_m := 7.5, recommended_patch_cord_m := 7.5 } := by
    rw [calculate_cross ⟨1, 10⟩ ⟨3, 20⟩ none (by decide) (by decide) (by decide)]
    simp only [Except.ok.injEq, CableLengthBreakdown.mk.injEq]
    norm_num [vertical_a_val, vertical_b_table, cable_channel_m, MAX_UNIT,
      recommend_of, EXCESS_THRESHOLD_M, round_up_eq_chain,
      round_to_nearest_patch_cord, PATCH_CORD_OPTIONS_M, List.foldl, List.head!,
      abs_of_nonneg]
  exact ⟨h, C4_cross_rack_raw_total ⟨1, 10⟩ ⟨3, 20⟩ none _ (by decide) h⟩

/-- C5: on the same-rack path the raw total is the claimed step table of the
unit distance (with distance 0 in the same bucket as 1 and 2) and no slack
is added. -/
theorem C5_same_rack_step_table (a b : ServerLocation)
    (cfg : Option DataCenterCableConfig) (bd : CableLengthBreakdown)
    (hr : a.rack = b.rack)
    (hbd : calculate_patch_cord_breakdown a b cfg = .ok bd) :
    bd.raw_total_m = step_table_spec |a.unit - b.unit| ∧ bd.slack_added_m = 0 := by
  obtain ⟨ha, hb⟩ := calculate_ok_valid a b cfg bd hbd
  rw [calculate_same a b cfg hr ha hb] at hbd
  injection hbd with h
  subst h
  refine ⟨?_, rfl⟩
  show same_rack_table |a.unit - b.unit| = _
  apply same_rack_table_eq_spec
  · exact abs_nonneg _
  · obtain ⟨ha1, ha2⟩ := ha
    obtain ⟨hb1, hb2⟩ := hb
    unfold MAX_UNIT at ha2 hb2
    rw [abs_le]
    omega

/-- C5 witness: units 5 and 30 in rack 2, distance 25, table value 2.5 m and
no slack. -/
theorem C5_witness :
    calculate_patch_cord_breakdown ⟨2, 5⟩ ⟨2, 30⟩ none =
      .ok { same_rack := true, vertical_a_m := 2.5, vertical_b_m := 0,
            horizontal_m := 0, raw_total_m := 2.5, slack_added_m := 0,
            rounded_total_m := 3, recommended_patch_cord_m := 3 } ∧
    step_table_spec |(5 : ℤ) - 30| = 2.5 ∧
    (2.5 : ℚ) = step_table_spec |(5 : ℤ) - 30| ∧ (0 : ℚ) = 0 := by
  have h : calculate_patch_cord_breakdown ⟨2, 5⟩ ⟨2, 30⟩ none =
      .ok { same_rack := true, vertical_a_m := 2.5, vertical_b_m := 0,
            horizontal_m := 0, raw_total_m := 2.5, slack_added_m := 0,
            rounded_total_m := 3, recommended_patch_cord_m := 3 } := by
    rw [calculate_same ⟨2, 5⟩ ⟨2, 30⟩ none rfl (by decide) (by decide)]
    simp only [Except.ok.injEq, CableLengthBreakdown.mk.injEq]
    norm_num [same_rack_table, recommend_of, EXCESS_THRESHOLD_M, round_up_eq_chain,
      round_to_nearest_patch_cord, PATCH_CORD_OPTIONS_M, List.foldl, List.head!,
      abs_of_nonneg]
  have habs : |(5 : ℤ) - 30| = 25 := by decide
  have hspec : step_table_spec |(5 : ℤ) - 30| = 2.5 := by
    rw [habs]
    norm_num [step_table_spec]
  obtain ⟨h1, h2⟩ := C5_same_rack_step_table ⟨2, 5⟩ ⟨2, 30⟩ none _ rfl h
  exact ⟨h, hspec, h1, h2⟩

/-- C6 (amended): the configuration carries no tunables; on every cross-rack
computation the margin added to the raw total is the fixed constant 0.40 m,
recorded unchanged in `slack_added_m`. -/
theorem C6_margin_fixed (a b : ServerLocation)
    (cfg : Option DataCenterCableConfig) (bd : CableLengthBreakdown)
    (hr : a.rack ≠ b.rack)
    (hbd : calculate_patch_cord_breakdown a b cfg = .ok bd) :
    bd.slack_added_m = 0.4 ∧
    bd.raw_total_m = bd.vertical_a_m + bd.horizontal_m + bd.vertical_b_m + 0.4 := by
  obtain ⟨ha, hb⟩ := calculate_ok_valid a b cfg bd hbd
  rw [calculate_cross a b cfg hr ha hb] at hbd
  injection hbd with h
  subst h
  exact ⟨rfl, rfl⟩

/-- C6 witness: racks 1 and 2, units 1 and 50 — the slack recorded is 0.40 m
and the raw total is the sum of the three segments plus 0.40 m. -/
theorem C6_witness :
    calculate_patch_cord_breakdown ⟨1, 1⟩ ⟨2, 50⟩ none =
      .ok { same_rack := false, vertical_a_m := 1.96, vertical_b_m := 0.5,
            horizontal_m := 1.5, raw_total_m := 4.36, slack_added_m := 0.4,
            rounded_total_m := 5, recommended_patch_cord_m := 5 } ∧
    ({ same_rack := false, vertical_a_m := 1.96, vertical_b_m := 0.5,
       horizontal_m := 1.5, raw_total_m := 4.36, slack_added_m := 0.4,
       rounded_total_m := 5,
       recommended_patch_cord_m := 5 : CableLengthBreakdown }.slack_added_m = 0.4 ∧
     ({ same_rack := false, vertical_a_m := 1.96, vertical_b_m := 0.5,
        horizontal_m := 1.5, raw_total_m := 4.36, slack_added_m := 0.4,
        rounded_total_m := 5,
        recommended_patch_cord_m := 5 : CableLengthBreakdown }.raw_total_m =
       1.96 + 1.5 + 0.5 + 0.4)) := by
  have h : calculate_patch_cord_breakdown ⟨1, 1⟩ ⟨2, 50⟩ none =
      .ok { same_rack := false, vertical_a_m := 1.96, vertical_b_m := 0.5,
            horizontal_m := 1.5, raw_total_m := 4.36, slack_added_m := 0.4,
            rounded_total_m := 5, recommended_patch_cord_m := 5 } := by
    rw [calculate_cross ⟨1, 1⟩ ⟨2, 50⟩ none (by decide) (by decide) (by decide)]
    simp only [Except.ok.injEq, CableLengthBreakdown.mk.injEq]
    norm_num [vertical_a_val, vertical_b_table, cable_channel_m, MAX_UNIT,
      recommend_of, EXCESS_THRESHOLD_M, round_up_eq_chain,
      round_to_nearest_patch_cord, PATCH_CORD_OPTIONS_M, List.foldl, List.head!,
      abs_of_nonneg]
  exact ⟨h, C6_margin_fixed ⟨1, 1⟩ ⟨2, 50⟩ none _ (by decide) h⟩

/-- C6 counterexample: the configuration type admits no two distinct values,
so it carries no safety-margin tunable, and the slack recorded on a concrete
cross-rack computation is the fixed 0.40 m whatever configuration is
passed. -/
theorem C6_no_tunable_counterexample :
    (¬ ∃ c₁ c₂ : DataCenterCableConfig, c₁ ≠ c₂) ∧
    (calculate_patch_cord_breakdown ⟨1, 1⟩ ⟨2, 50⟩ (some ⟨⟩)).map
      CableLengthBreakdown.slack_added_m = .ok 0.4 := by
  constructor
  · rintro ⟨⟨⟩, ⟨⟩, hne⟩
    exact hne rfl
  · rw [calculate_cross ⟨1, 1⟩ ⟨2, 50⟩ (some ⟨⟩) (by decide) (by decide) (by decide)]
    rfl

/-- C8: holding both units fixed, a larger rack gap never yields a smaller
raw total — including the comparison of the same-rack path (gap 0) against
any cross-rack placement. -/
theorem C8_raw_total_monotone (a1 b1 a2 b2 : ServerLocation)
    (cfg1 cfg2 : Option DataCenterCableConfig) (bd1 bd2 : CableLengthBreakdown)
    (hu1 : a1.unit = a2.unit) (hu2 : b1.unit = b2.unit)
    (hg : |a1.rack - b1.rack| ≤ |a2.rack - b2.rack|)
    (h1 : calculate_patch_cord_breakdown a1 b1 cfg1 = .ok bd1)
    (h2 : calculate_patch_cord_breakdown a2 b2 cfg2 = .ok bd2) :
    bd1.raw_total_m ≤ bd2.raw_total_m := by
  obtain ⟨ha1, hb1⟩ := calculate_ok_valid _ _ _ _ h1
  obtain ⟨ha2, hb2⟩ := calculate_ok_valid _ _ _ _ h2
  by_cases hr2 : a2.rack = b2.rack
  · have e2 : |a2.rack - b2.rack| = (0 : ℤ) := by rw [hr2, sub_self, abs_zero]
    have e1 : a1.rack = b1.rack := by
      rw [e2] at hg
      have h0 : |a1.rack - b1.rack| = 0 := le_antisymm hg (abs_nonneg _)
      have := abs_eq_zero.mp h0
      omega
    rw [calculate_same a1 b1 cfg1 e1 ha1 hb1] at h1
    rw [calculate_same a2 b2 cfg2 hr2 ha2 hb2] at h2
    injection h1 with h1
    injection h2 with h2
    subst h1
    subst h2
    show same_rack_table |a1.unit - b1.unit| ≤ same_rack_table |a2.unit - b2.unit|
    rw [hu1, hu2]
  · by_cases hr1 : a1.rack = b1.rack
    · rw [calculate_same a1 b1 cfg1 hr1 ha1 hb1] at h1
      rw [calculate_cross a2 b2 cfg2 hr2 ha2 hb2] at h2
      injection h1 with h1
      injection h2 with h2
      subst h1
      subst h2
      show same_rack_table |a1.unit - b1.unit| ≤ vertical_a_val a2.unit +
        cable_channel_m a2.rack b2.rack + vertical_b_table b2.unit + 0.4
      rw [hu1, hu2]
      exact cross_ge_same a2.unit b2.unit ha2 hb2 _ (cable_channel_m_ge _ _ hr2)
    · rw [calculate_cross a1 b1 cfg1 hr1 ha1 hb1] at h1
      rw [calculate_cross a2 b2 cfg2 hr2 ha2 hb2] at h2
      injection h1 with h1
      injection h2 with h2
      subst h1
      subst h2
      show vertical_a_val a1.unit + cable_channel_m a1.rack b1.rack +
          vertical_b_table b1.unit + 0.4 ≤
        vertical_a_val a2.unit + cable_channel_m a2.rack b2.rack +
          vertical_b_table b2.unit + 0.4
      rw [hu1, hu2]
      have hch : cable_channel_m a1.rack b1.rack ≤ cable_channel_m a2.rack b2.rack := by
        rw [cable_channel_m_eq _ _ hr1, cable_channel_m_eq _ _ hr2]
        have hq : ((|b1.rack - a1.rack| : ℤ) : ℚ) ≤ ((|b2.rack - a2.rack| : ℤ) : ℚ) := by
          exact_mod_cast (by rw [abs_sub_comm b1.rack, abs_sub_comm b2.rack]; exact hg)
        linarith
      linarith

/-- C8 witness: units 10 and 20 at rack gap 0 (raw 1.5 m) versus rack gap 2
(raw 6.2 m). -/
theorem C8_witness :
    calculate_patch_cord_breakdown ⟨1, 10⟩ ⟨1, 20⟩ none =
      .ok { same_rack := true, vertical_a_m := 1.5, vertical_b_m := 0,
            horizontal_m := 0, raw_total_m := 1.5, slack_added_m := 0,
            rounded_total_m := 1.5, recommended_patch_cord_m := 1.5 } ∧
    calculate_patch_cord_breakdown ⟨1, 10⟩ ⟨3, 20⟩ none =
      .ok { same_rack := false, vertical_a_m := 1.6, vertical_b_m := 2.2,
            horizontal_m := 2, raw_total_m := 6.2, slack_added_m := 0.4,
            rounded_total_m := 7.5, recommended_patch_cord_m := 7.5 } ∧
    (|(1 : ℤ) - 1| ≤ |(1 : ℤ) - 3|) ∧
    (1.5 : ℚ) ≤ 6.2 := by
  have h1 : calculate_patch_cord_breakdown ⟨1, 10⟩ ⟨1, 20⟩ none =
      .ok { same_rack := true, vertical_a_m := 1.5, vertical_b_m := 0,
            horizontal_m := 0, raw_total_m := 1.5, slack_added_m := 0,
            rounded_total_m := 1.5, recommended_patch_cord_m := 1.5 } := by
    rw [calculate_same ⟨1, 10⟩ ⟨1, 20⟩ none rfl (by decide) (by decide)]
    simp only [Except.ok.injEq, CableLengthBreakdown.mk.injEq]
    norm_num [same_rack_table, recommend_of, EXCESS_THRESHOLD_M, round_up_eq_chain,
      round_to_nearest_patch_cord, PATCH_CORD_OPTIONS_M, List.foldl, List.head!,
      abs_of_nonneg]
  have h2 : calculate_patch_cord_breakdown ⟨1, 10⟩ ⟨3, 20⟩ none =
      .ok { same_rack := false, vertical_a_m := 1.6, vertical_b_m := 2.2,
            horizontal_m := 2, raw_total_m := 6.2, slack_added_m := 0.4,
            rounded_total_m := 7.5, recommended_patch_cord_m := 7.5 } := by
    rw [calculate_cross ⟨1, 10⟩ ⟨3, 20⟩ none (by decide) (by decide) (by decide)]
    simp only [Except.ok.injEq, CableLengthBreakdown.mk.injEq]
    norm_num [vertical_a_val, vertical_b_table, cable_channel_m, MAX_UNIT,
      recommend_of, EXCESS_THRESHOLD_M, round_up_eq_chain,
      round_to_nearest_patch_cord, PATCH_CORD_OPTIONS_M, List.foldl, List.head!,
      abs_of_nonneg]
  exact ⟨h1, h2, by decide,
    C8_raw_total_monotone ⟨1, 10⟩ ⟨1, 20⟩ ⟨1, 10⟩ ⟨3, 20⟩ none none _ _
      rfl rfl (by decide) h1 h2⟩

/-- C10: on the same-rack path the breakdown repurposes the segment fields —
`vertical_a_m` holds the whole table value (it equals the raw total) while
`vertical_b_m` and `horizontal_m` are 0. -/
theorem C10_same_rack_segment_fields (a b : ServerLocation)
    (cfg : Option DataCenterCableConfig) (bd : CableLengthBreakdown)
    (hr : a.rack = b.rack)
    (hbd : calculate_patch_cord_breakdown a b cfg = .ok bd) :
    bd.vertical_a_m = bd.raw_total_m ∧ bd.vertical_b_m = 0 ∧ bd.horizontal_m = 0 := by
  obtain ⟨ha, hb⟩ := calculate_ok_valid a b cfg bd hbd
  rw [calculate_same a b cfg hr ha hb] at hbd
  injection hbd with h
  subst h
  exact ⟨rfl, rfl, rfl⟩

/-- C10 witness: units 7 and 40 in rack 3 — the table value 2.5 m fills
`vertical_a_m`, the other segment fields are 0. -/
theorem C10_witness :
    calculate_patch_cord_breakdown ⟨3, 7⟩ ⟨3, 40⟩ none =
      .ok { same_rack := true, vertical_a_m := 2.5, vertical_b_m := 0,
            horizontal_m := 0, raw_total_m := 2.5, slack_added_m := 0,
            rounded_total_m := 3, recommended_patch_cord_m := 3 } ∧
    (2.5 : ℚ) = 2.5 ∧ (0 : ℚ) = 0 := by
  have h : calculate_patch_cord_breakdown ⟨3, 7⟩ ⟨3, 40⟩ none =
      .ok { same_rack := true, vertical_a_m := 2.5, vertical_b_m := 0,
            horizontal_m := 0, raw_total_m := 2.5, slack_added_m := 0,
            rounded_total_m := 3, recommended_patch_cord_m := 3 } := by
    rw [calculate_same ⟨3, 7⟩ ⟨3, 40⟩ none rfl (by decide) (by decide)]
    simp only [Except.ok.injEq, CableLengthBreakdown.mk.injEq]
    norm_num [same_rack_table, recommend_of, EXCESS_THRESHOLD_M, round_up_eq_chain,
      round_to_nearest_patch_cord, PATCH_CORD_OPTIONS_M, List.foldl, List.head!,
      abs_of_nonneg]
  obtain ⟨g1, g2, g3⟩ := C10_same_rack_segment_fields ⟨3, 7⟩ ⟨3, 40⟩ none _ rfl h
  exact ⟨h, g1, g2⟩
